import Mathlib

/-!
Verification development for the voice-agent repository.

The first part embeds the code that is present under the repository's
sources: the `ConnectionState` interface declaration, the `/api/auth/*`
route of the Elysia server, and the `POST /ai` handler.  The second part
models the Relay Orchestrator of the design spec — whose implementation
is not among the sources — as an explicit state machine driven by a
single-consumer event loop, exactly as the spec describes it, and proves
the spec's testable properties about that model.
-/

namespace VoiceAgent

/-! ## Part 1: embeddings of the source files -/

/-- A declared TypeScript field type occurring in the `ConnectionState`
interface: either `string` or the placeholder `any`. -/
inductive TSType
  | string
  | any
  deriving DecidableEq

/-- The `ConnectionState` interface exactly as declared in the source
(`VoiceSessionData`/`ConnectionState` module): the list of its fields with
their declared types, in declaration order.  The two `any` fields carry the
source comments naming them the OpenAI client handle and the Arcade handler. -/
def connectionStateDecl : List (String × TSType) :=
  [("userId", TSType.string),
   ("sessionToken", TSType.string),
   ("openAIClient", TSType.any),
   ("arcadeHandler", TSType.any)]

/-- The `VoiceSessionData` interface as declared in the same source file. -/
def voiceSessionDataDecl : List (String × TSType) :=
  [("userId", TSType.string),
   ("sessionToken", TSType.string)]

/-- Outcome of the `/api/auth/*` route: either the request is delegated to
`auth.handler(request)`, or the route answers `status(405)` without invoking
the auth handler. -/
inductive AuthRouteResult
  | handlerInvoked
  | status405
  deriving DecidableEq

/-- The `/api/auth/*` route of the Elysia server, as written in the source:
`if (["POST", "GET"].includes(request.method)) return auth.handler(request);
return status(405);`. -/
def authRoute (method : String) : AuthRouteResult :=
  if ["POST", "GET"].contains method then AuthRouteResult.handlerInvoked
  else AuthRouteResult.status405

/-- A UI chat message of the `POST /ai` body; its content is irrelevant to
the handler's control flow and kept abstract as a string. -/
structure UIMessage where
  content : String
  deriving DecidableEq

/-- The JSON body of `POST /ai`: its `messages` field is optional
(`{ messages?: any[] }` in the typed variant of the server source). -/
structure AiRequestBody where
  messages : Option (List UIMessage)
  deriving DecidableEq

/-- The response of the `POST /ai` handler: a UI-message stream response for
the model conversation built from the given messages
(`streamText({...}).toUIMessageStreamResponse()`). -/
inductive AiResponse
  | uiMessageStream (messages : List UIMessage)
  deriving DecidableEq

/-- The `POST /ai` handler of the Elysia server, as written in the source:
`const uiMessages = body.messages || [];` followed by streaming a model
response over `convertToModelMessages(uiMessages)`.  A body with no
`messages` field (JS falsy) yields the empty message list. -/
def aiHandler (body : AiRequestBody) : AiResponse :=
  AiResponse.uiMessageStream (body.messages.getD [])

/-! ## Part 2: the Relay Orchestrator, modelled from the spec

The repository's sources contain only the `ConnectionState` stub of this
subsystem; the orchestrator itself exists as design text.  The definitions
below therefore follow the spec (sections 3–8) literally. -/

/-- Modelled from the spec: the lifecycle phases of the Relay Orchestrator
state machine (spec 4.1); the orchestrator implementation is not among the
sources. -/
inductive Phase
  | connecting
  | authenticating
  | bridging
  | closing
  | closed
  | failed
  deriving DecidableEq

/-- Modelled from the spec: `Closed` and `Failed` are the terminal phases;
no further operations are accepted there (spec 4.1). -/
def Phase.isTerminal : Phase → Bool
  | Phase.closed => true
  | Phase.failed => true
  | _ => false

/-- Modelled from the spec: the durable VoiceSession record, restricted to
the parts the orchestrator claims touch (owner principal and whether the
session has been marked ended; spec 3). -/
structure VoiceSession where
  userId : String
  sessionToken : String
  ended : Bool
  deriving DecidableEq

/-- Modelled from the spec: the Session Store operation
`end(sessionToken) -> void`, idempotent — it marks the session ended
(spec 6).  Named `endSession` because `end` is reserved in Lean. -/
def endSession (v : VoiceSession) : VoiceSession :=
  { v with ended := true }

/-- Modelled from the spec: the Upstream Speech Channel handle, reduced to
its connection status (spec 4.4). -/
structure UpstreamChannel where
  connected : Bool
  deriving DecidableEq

/-- Modelled from the spec: `disconnect()` on the Upstream Speech Channel,
idempotent and safe to call from any state (spec 4.4). -/
def UpstreamChannel.disconnect (_c : UpstreamChannel) : UpstreamChannel :=
  { connected := false }

/-- Modelled from the spec: the payload of a tool-call response — either a
result payload or an error payload (spec 3). -/
inductive ToolOutcome
  | result (payload : String)
  | toolError (message : String)
  deriving DecidableEq

/-- Modelled from the spec: structured/binary payloads the orchestrator
sends to the client (spec 6 client-facing channel contract). -/
inductive ClientMsg
  | binaryAudio (frame : List Nat)
  | ready
  | errorEvent (message : String)
  | transcript (payload : String)
  | authFailure
  deriving DecidableEq

/-- Modelled from the spec: messages the orchestrator sends to the Upstream
Speech Channel (spec 6 upstream wire contract). -/
inductive UpstreamMsg
  | audioFrame (frame : List Nat)
  | controlEvent (kind : String)
  | toolCallResponse (callId : String) (outcome : ToolOutcome)
  deriving DecidableEq

/-- Modelled from the spec: per-connection configuration — the Tool
Gateway's currently registered tool set (spec 4.3 step 1). -/
structure Config where
  registeredTools : List String
  deriving DecidableEq

/-- Modelled from the spec: the recognized, closed set of client control
message kinds (spec 4.2; the spec names `stop` as the example kind). -/
def recognizedControlKinds : List String := ["stop"]

/-- Modelled from the spec: the full observable state of one Relay
Orchestrator: lifecycle phase, its VoiceSession (none until authentication
succeeds), the upstream channel status, registry membership, the callIds
forwarded to the Tool Gateway and still outstanding, the outbound message
logs of both directions, the Tool Gateway executions performed, and effect
counters for session-end and registry-removal (spec 3, 4.1, 5). -/
structure OrchState where
  phase : Phase
  session : Option VoiceSession
  upstreamOpen : Bool
  inRegistry : Bool
  pending : List String
  toClient : List ClientMsg
  toUpstream : List UpstreamMsg
  gatewayCalls : List (String × String)
  endEffects : Nat
  removeEffects : Nat
  deriving DecidableEq

/-- Modelled from the spec: whether the orchestrator's VoiceSession exists
and has not yet been marked ended. -/
def sessionActive (s : OrchState) : Bool :=
  match s.session with
  | some v => !v.ended
  | none => false

/-- Modelled from the spec: the terminal close path (spec 4.1
Closing/Closed, 7): idempotently close the upstream channel, mark the
VoiceSession ended exactly once, and remove the Connection Registry entry
exactly once; a second invocation from a terminal phase does nothing. -/
def closeTerm (s : OrchState) : OrchState :=
  if s.phase.isTerminal then s
  else
    { s with
      phase := Phase.closed
      upstreamOpen := false
      session := s.session.map endSession
      endEffects := s.endEffects + (if sessionActive s then 1 else 0)
      inRegistry := false
      removeEffects := s.removeEffects + (if s.inRegistry then 1 else 0) }

/-- Modelled from the spec: the events that drive orchestrator transitions —
inbound client messages, inbound upstream events, Tool Gateway completions,
and the two disconnects (spec 4.1). -/
inductive Event
  | transportAccepted
  | credential (valid : Bool) (userId sessionToken : String)
  | clientBinary (frame : List Nat)
  | clientControl (kind : String)
  | upstreamAudioDelta (frame : List Nat)
  | upstreamTranscript (payload : String)
  | upstreamToolCallRequest (callId toolName : String)
  | gatewayComplete (callId : String) (outcome : ToolOutcome)
  | clientDisconnect
  | upstreamDisconnect
  deriving DecidableEq

/-- Modelled from the spec: one step of the per-connection single-consumer
event loop (spec 4.1–4.3, 7).  Terminal phases accept no further
operations; authentication success creates the VoiceSession, opens the
upstream channel, registers the connection and sends `ready`;
authentication failure closes with an auth-failure event and no session;
bridging relays audio/transcripts in arrival order, rejects unrecognized
control kinds with a client error event and no other state change,
synthesizes an error response for unregistered tools without calling the
gateway, forwards registered tool calls to the gateway, and resolves each
gateway completion with exactly one upstream response — discarded when the
upstream channel is no longer open; disconnects take the terminal close
path. -/
def step (cfg : Config) (s : OrchState) (e : Event) : OrchState :=
  if s.phase.isTerminal then s
  else
    match e with
    | Event.transportAccepted =>
        if s.phase = Phase.connecting then { s with phase := Phase.authenticating } else s
    | Event.credential valid uid tok =>
        if s.phase = Phase.authenticating then
          if valid then
            { s with
              phase := Phase.bridging
              session := some { userId := uid, sessionToken := tok, ended := false }
              upstreamOpen := true
              inRegistry := true
              toClient := s.toClient ++ [ClientMsg.ready] }
          else
            { s with
              phase := Phase.failed
              toClient := s.toClient ++ [ClientMsg.authFailure] }
        else s
    | Event.clientBinary frame =>
        if s.phase = Phase.bridging then
          { s with toUpstream := s.toUpstream ++ [UpstreamMsg.audioFrame frame] }
        else s
    | Event.clientControl kind =>
        if s.phase = Phase.bridging then
          if recognizedControlKinds.contains kind then
            { s with toUpstream := s.toUpstream ++ [UpstreamMsg.controlEvent kind] }
          else
            { s with toClient := s.toClient ++ [ClientMsg.errorEvent ("unrecognized message kind: " ++ kind)] }
        else s
    | Event.upstreamAudioDelta frame =>
        if s.phase = Phase.bridging then
          { s with toClient := s.toClient ++ [ClientMsg.binaryAudio frame] }
        else s
    | Event.upstreamTranscript payload =>
        if s.phase = Phase.bridging then
          { s with toClient := s.toClient ++ [ClientMsg.transcript payload] }
        else s
    | Event.upstreamToolCallRequest callId toolName =>
        if s.phase = Phase.bridging then
          if cfg.registeredTools.contains toolName then
            { s with
              pending := s.pending ++ [callId]
              gatewayCalls := s.gatewayCalls ++ [(callId, toolName)] }
          else
            { s with toUpstream := s.toUpstream ++ [UpstreamMsg.toolCallResponse callId (ToolOutcome.toolError ("unknown tool: " ++ toolName))] }
        else s
    | Event.gatewayComplete callId outcome =>
        if s.pending.contains callId then
          if s.upstreamOpen then
            { s with
              pending := s.pending.erase callId
              toUpstream := s.toUpstream ++ [UpstreamMsg.toolCallResponse callId outcome] }
          else
            { s with pending := s.pending.erase callId }
        else s
    | Event.clientDisconnect => closeTerm s
    | Event.upstreamDisconnect => closeTerm s

/-- Modelled from the spec: running the event loop over a list of events. -/
def run (cfg : Config) (s : OrchState) (evs : List Event) : OrchState :=
  evs.foldl (step cfg) s

/-- Modelled from the spec: the state of a freshly accepted connection —
phase `Connecting`, no session, nothing sent, not yet registered. -/
def initState : OrchState :=
  { phase := Phase.connecting
    session := none
    upstreamOpen := false
    inRegistry := false
    pending := []
    toClient := []
    toUpstream := []
    gatewayCalls := []
    endEffects := 0
    removeEffects := 0 }

/-- Recognizer for a tool-call response carrying a given callId. -/
def isRespFor (cid : String) : UpstreamMsg → Bool
  | UpstreamMsg.toolCallResponse c _ => c == cid
  | _ => false

/-- Number of tool-call responses for a given callId in an upstream log. -/
def respCount (cid : String) (l : List UpstreamMsg) : Nat :=
  l.countP (isRespFor cid)

/-- Recognizer for a tool-call-request event carrying a given callId. -/
def isReqFor (cid : String) : Event → Bool
  | Event.upstreamToolCallRequest c _ => c == cid
  | _ => false

/-- Number of tool-call-request events for a given callId in a trace. -/
def reqCount (cid : String) (evs : List Event) : Nat :=
  evs.countP (isReqFor cid)

/-- Recognizer for the `ready` client signal. -/
def isReady : ClientMsg → Bool
  | ClientMsg.ready => true
  | _ => false

/-- Number of `ready` signals in a client-bound log. -/
def readyCount (l : List ClientMsg) : Nat :=
  l.countP isReady

/-- Modelled from the spec: the invariant the `ready` signal obeys — sent at
most once, only with a created VoiceSession, exactly once by the time the
connection is in `Bridging`, and never while still connecting or
authenticating (spec 4.1, 8). -/
def readyInv (s : OrchState) : Prop :=
  readyCount s.toClient ≤ 1
  ∧ (1 ≤ readyCount s.toClient → s.session.isSome = true)
  ∧ (s.phase = Phase.bridging → readyCount s.toClient = 1 ∧ s.session.isSome = true)
  ∧ ((s.phase = Phase.connecting ∨ s.phase = Phase.authenticating) →
      readyCount s.toClient = 0 ∧ s.session = none)

/-- A concrete per-connection configuration with one registered tool, used
to witness the theorems on concrete inputs. -/
def demoConfig : Config := { registeredTools := ["weather"] }

/-- A concrete Bridging-phase orchestrator state with one outstanding tool
call, used to witness the theorems on concrete inputs. -/
def demoBridgingState : OrchState :=
  { phase := Phase.bridging
    session := some { userId := "u1", sessionToken := "tok1", ended := false }
    upstreamOpen := true
    inRegistry := true
    pending := ["c1"]
    toClient := [ClientMsg.ready]
    toUpstream := []
    gatewayCalls := [("c1", "weather")]
    endEffects := 0
    removeEffects := 0 }

/-- A concrete event trace: handshake, successful authentication, one
registered tool call and its completion. -/
def demoTrace : List Event :=
  [Event.transportAccepted,
   Event.credential true "u1" "tok1",
   Event.upstreamToolCallRequest "c1" "weather",
   Event.gatewayComplete "c1" (ToolOutcome.result "sunny")]

/-- A concrete connection state still in the authenticating phase, used to
witness the authentication-failure theorem. -/
def demoAuthState : OrchState :=
  { initState with phase := Phase.authenticating }

end VoiceAgent

namespace VoiceAgent

/-! ## Theorems for the claims decided by the source part embedded above -/

/-- C3 counterexample: the claim lists five distinct components that the
`ConnectionState` record is said to contain (`userId`, `sessionToken`, an
Upstream Speech Channel handle, a Tool Gateway handle, and the current
lifecycle phase), which requires at least five fields; the declared
interface has only four, so it cannot contain all five — in particular no
field holds the lifecycle phase. -/
theorem connectionState_phase_missing_C3_cex :
    ¬ (5 ≤ connectionStateDecl.length) := by decide

/-- C3 (amended): the in-memory `ConnectionState` record contains the
`userId`, the `sessionToken`, the handle to the Upstream Speech Channel
client (`openAIClient`) and the handle to the Tool Gateway handler
(`arcadeHandler`) — these four fields exactly, in this order, and no field
for the lifecycle phase of the connection state machine. -/
theorem connectionState_fields_C3 :
    connectionStateDecl.map Prod.fst
      = ["userId", "sessionToken", "openAIClient", "arcadeHandler"]
    ∧ connectionStateDecl.length = 4
    ∧ (("userId", TSType.string) ∈ connectionStateDecl
       ∧ ("sessionToken", TSType.string) ∈ connectionStateDecl
       ∧ ("openAIClient", TSType.any) ∈ connectionStateDecl
       ∧ ("arcadeHandler", TSType.any) ∈ connectionStateDecl) := by decide

/-- C9: a request to `/api/auth/*` whose method is neither `GET` nor `POST`
is answered with status 405 and the auth handler is not invoked; `GET` and
`POST` requests are delegated to the auth handler. -/
theorem auth_route_methods_C9 (method : String)
    (hne1 : method ≠ "GET") (hne2 : method ≠ "POST") :
    authRoute method = AuthRouteResult.status405
    ∧ authRoute "GET" = AuthRouteResult.handlerInvoked
    ∧ authRoute "POST" = AuthRouteResult.handlerInvoked := by
  refine ⟨?_, by decide, by decide⟩
  have hmem : (["POST", "GET"].contains method) = false := by
    simp only [List.contains_eq_any_beq, List.any_cons, List.any_nil, Bool.or_false,
      Bool.or_eq_false_iff, beq_eq_false_iff_ne, ne_eq]
    exact ⟨hne2, hne1⟩
  simp only [authRoute, hmem, Bool.false_eq_true, if_false]

/-- C9 witness at the concrete method `PUT`. -/
theorem auth_route_methods_C9_witness :
    ("PUT" : String) ≠ "GET" ∧ ("PUT" : String) ≠ "POST"
    ∧ (authRoute "PUT" = AuthRouteResult.status405
       ∧ authRoute "GET" = AuthRouteResult.handlerInvoked
       ∧ authRoute "POST" = AuthRouteResult.handlerInvoked) :=
  ⟨by decide, by decide, auth_route_methods_C9 "PUT" (by decide) (by decide)⟩

/-- C10: a `POST /ai` body whose `messages` field is absent (JS falsy) is
handled without failing: the handler proceeds with the empty message list
and streams a model response for the empty conversation. -/
theorem ai_handler_missing_messages_C10 (body : AiRequestBody)
    (h : body.messages = none) :
    aiHandler body = AiResponse.uiMessageStream [] := by
  simp [aiHandler, h]

/-- C10 witness at the concrete body with no `messages` field. -/
theorem ai_handler_missing_messages_C10_witness :
    (AiRequestBody.mk none).messages = none
    ∧ aiHandler (AiRequestBody.mk none) = AiResponse.uiMessageStream [] :=
  ⟨rfl, ai_handler_missing_messages_C10 (AiRequestBody.mk none) rfl⟩

/-! ## Helper lemmas about the orchestrator model -/

theorem step_terminal (cfg : Config) (s : OrchState) (e : Event)
    (h : s.phase.isTerminal = true) : step cfg s e = s := by
  simp [step, h]

theorem run_terminal (cfg : Config) (s : OrchState) (evs : List Event)
    (h : s.phase.isTerminal = true) : run cfg s evs = s := by
  induction evs with
  | nil => rfl
  | cons e evs ih =>
      show run cfg (step cfg s e) evs = s
      rw [step_terminal cfg s e h, ih]

theorem closeTerm_toUpstream (s : OrchState) :
    (closeTerm s).toUpstream = s.toUpstream := by
  unfold closeTerm; split <;> rfl

theorem closeTerm_pending (s : OrchState) :
    (closeTerm s).pending = s.pending := by
  unfold closeTerm; split <;> rfl

theorem closeTerm_toClient (s : OrchState) :
    (closeTerm s).toClient = s.toClient := by
  unfold closeTerm; split <;> rfl

theorem closeTerm_of_terminal (s : OrchState) (h : s.phase.isTerminal = true) :
    closeTerm s = s := by
  simp [closeTerm, h]

theorem closeTerm_phase_terminal (s : OrchState) :
    (closeTerm s).phase.isTerminal = true := by
  by_cases h : s.phase.isTerminal = true
  · rw [closeTerm_of_terminal s h]; exact h
  · simp [closeTerm, h]
    rfl

theorem closeTerm_idem (s : OrchState) : closeTerm (closeTerm s) = closeTerm s :=
  closeTerm_of_terminal (closeTerm s) (closeTerm_phase_terminal s)

theorem respCount_append (cid : String) (l1 l2 : List UpstreamMsg) :
    respCount cid (l1 ++ l2) = respCount cid l1 + respCount cid l2 := by
  simp [respCount, List.countP_append]

theorem respCount_single_resp (cid c : String) (o : ToolOutcome) :
    respCount cid [UpstreamMsg.toolCallResponse c o] = if c = cid then 1 else 0 := by
  by_cases h : c = cid <;> simp [respCount, List.countP_cons, isRespFor, h]

theorem respCount_single_audio (cid : String) (f : List Nat) :
    respCount cid [UpstreamMsg.audioFrame f] = 0 := by
  simp [respCount, List.countP_cons, isRespFor]

theorem respCount_single_control (cid k : String) :
    respCount cid [UpstreamMsg.controlEvent k] = 0 := by
  simp [respCount, List.countP_cons, isRespFor]

theorem reqCount_single_req (cid c tn : String) :
    reqCount cid [Event.upstreamToolCallRequest c tn] = if c = cid then 1 else 0 := by
  by_cases h : c = cid <;> simp [reqCount, List.countP_cons, isReqFor, h]

theorem reqCount_cons (cid : String) (e : Event) (evs : List Event) :
    reqCount cid (e :: evs) = reqCount cid [e] + reqCount cid evs := by
  simp [reqCount, List.countP_cons]
  omega

/-- One event-loop step never creates a second response for a callId: the
number of responses for `cid` sent upstream plus the number of `cid`
entries still pending grows only when a new tool-call request for `cid`
arrives. -/
theorem step_resp_pend (cfg : Config) (s : OrchState) (e : Event) (cid : String) :
    respCount cid (step cfg s e).toUpstream + (step cfg s e).pending.count cid
      ≤ respCount cid s.toUpstream + s.pending.count cid + reqCount cid [e] := by
  by_cases hterm : s.phase.isTerminal = true
  · rw [step_terminal cfg s e hterm]
    exact Nat.le_add_right _ _
  · cases e with
    | transportAccepted =>
        by_cases h : s.phase = Phase.connecting <;>
          simp [step, Phase.isTerminal, hterm, h]
    | credential valid uid tok =>
        by_cases h : s.phase = Phase.authenticating
        · cases valid <;> simp [step, Phase.isTerminal, hterm, h]
        · simp [step, Phase.isTerminal, hterm, h]
    | clientBinary frame =>
        by_cases h : s.phase = Phase.bridging <;>
          simp [step, Phase.isTerminal, hterm, h, respCount_append, respCount_single_audio]
    | clientControl kind =>
        by_cases h : s.phase = Phase.bridging
        · by_cases hk : kind ∈ recognizedControlKinds <;>
            simp [step, Phase.isTerminal, hterm, h, hk, respCount_append,
              respCount_single_control]
        · simp [step, Phase.isTerminal, hterm, h]
    | upstreamAudioDelta frame =>
        by_cases h : s.phase = Phase.bridging <;>
          simp [step, Phase.isTerminal, hterm, h]
    | upstreamTranscript payload =>
        by_cases h : s.phase = Phase.bridging <;>
          simp [step, Phase.isTerminal, hterm, h]
    | upstreamToolCallRequest c tn =>
        by_cases h : s.phase = Phase.bridging
        · by_cases hreg : tn ∈ cfg.registeredTools
          · by_cases hc : c = cid
            · subst hc
              simp [step, Phase.isTerminal, hterm, h, hreg, reqCount_single_req,
                List.count_append]
              omega
            · simp [step, Phase.isTerminal, hterm, h, hreg, reqCount_single_req, hc,
                List.count_append, List.count_singleton']
          · by_cases hc : c = cid
            · subst hc
              simp [step, Phase.isTerminal, hterm, h, hreg, reqCount_single_req,
                respCount_append, respCount_single_resp]
              omega
            · simp [step, Phase.isTerminal, hterm, h, hreg, reqCount_single_req, hc,
                respCount_append, respCount_single_resp]
        · simp [step, Phase.isTerminal, hterm, h]
    | gatewayComplete c o =>
        by_cases hp : c ∈ s.pending
        · have hone : 1 ≤ s.pending.count c := List.one_le_count_iff.mpr hp
          by_cases hop : s.upstreamOpen = true
          · by_cases hc : c = cid
            · subst hc
              have herase : (s.pending.erase c).count c = s.pending.count c - 1 :=
                List.count_erase_self c s.pending
              simp [step, hterm, hp, hop, respCount_append,
                respCount_single_resp, herase]
              omega
            · have herase : (s.pending.erase c).count cid = s.pending.count cid :=
                List.count_erase_of_ne (fun hx => hc hx.symm) s.pending
              simp [step, hterm, hp, hop, respCount_append,
                respCount_single_resp, hc, herase]
          · by_cases hc : c = cid
            · subst hc
              have herase : (s.pending.erase c).count c = s.pending.count c - 1 :=
                List.count_erase_self c s.pending
              simp [step, hterm, hp, hop, herase]
              omega
            · have herase : (s.pending.erase c).count cid = s.pending.count cid :=
                List.count_erase_of_ne (fun hx => hc hx.symm) s.pending
              simp [step, hterm, hp, hop, herase]
        · simp [step, hterm, hp]
    | clientDisconnect =>
        simp [step, hterm, closeTerm_toUpstream, closeTerm_pending]
    | upstreamDisconnect =>
        simp [step, hterm, closeTerm_toUpstream, closeTerm_pending]

/-- Over a whole trace, responses for `cid` plus still-pending `cid`
entries are bounded by what was there initially plus the requests for `cid`
arriving in the trace. -/
theorem run_resp_pend (cfg : Config) (cid : String) :
    ∀ (evs : List Event) (s : OrchState),
      respCount cid (run cfg s evs).toUpstream + (run cfg s evs).pending.count cid
        ≤ respCount cid s.toUpstream + s.pending.count cid + reqCount cid evs := by
  intro evs
  induction evs with
  | nil =>
      intro s
      simp [run, reqCount]
  | cons e evs ih =>
      intro s
      have h1 := ih (step cfg s e)
      have h2 := step_resp_pend cfg s e cid
      have h3 := reqCount_cons cid e evs
      have hrun : run cfg s (e :: evs) = run cfg (step cfg s e) evs := rfl
      rw [hrun, h3]
      omega

theorem readyCount_append (l1 l2 : List ClientMsg) :
    readyCount (l1 ++ l2) = readyCount l1 + readyCount l2 := by
  simp [readyCount, List.countP_append]

theorem readyCount_single_ready : readyCount [ClientMsg.ready] = 1 := by
  simp [readyCount, List.countP_cons, isReady]

theorem readyCount_single_audio (f : List Nat) :
    readyCount [ClientMsg.binaryAudio f] = 0 := by
  simp [readyCount, List.countP_cons, isReady]

theorem readyCount_single_error (m : String) :
    readyCount [ClientMsg.errorEvent m] = 0 := by
  simp [readyCount, List.countP_cons, isReady]

theorem readyCount_single_transcript (p : String) :
    readyCount [ClientMsg.transcript p] = 0 := by
  simp [readyCount, List.countP_cons, isReady]

theorem readyCount_single_authFailure : readyCount [ClientMsg.authFailure] = 0 := by
  simp [readyCount, List.countP_cons, isReady]

/-- The terminal close path preserves the `ready` invariant. -/
theorem readyInv_closeTerm (s : OrchState) (h : readyInv s) : readyInv (closeTerm s) := by
  obtain ⟨hle, hsome, hbr, hpre⟩ := h
  by_cases hterm : s.phase.isTerminal = true
  · rw [closeTerm_of_terminal s hterm]
    exact ⟨hle, hsome, hbr, hpre⟩
  · refine ⟨?_, ?_, ?_, ?_⟩ <;> simp [closeTerm, hterm]
    · exact hle
    · intro hx
      exact hsome hx

/-- Each event-loop step preserves the `ready` invariant. -/
theorem readyInv_step (cfg : Config) (s : OrchState) (e : Event) (h : readyInv s) :
    readyInv (step cfg s e) := by
  obtain ⟨hle, hsome, hbr, hpre⟩ := h
  by_cases hterm : s.phase.isTerminal = true
  · rw [step_terminal cfg s e hterm]
    exact ⟨hle, hsome, hbr, hpre⟩
  · cases e with
    | transportAccepted =>
        by_cases h : s.phase = Phase.connecting
        · obtain ⟨hc0, hcn⟩ := hpre (Or.inl h)
          simp [step, Phase.isTerminal, h, readyInv, hc0, hcn]
        · simp [step, hterm, h]
          exact ⟨hle, hsome, hbr, hpre⟩
    | credential valid uid tok =>
        by_cases h : s.phase = Phase.authenticating
        · obtain ⟨hc0, hcn⟩ := hpre (Or.inr h)
          cases valid
          · simp [step, Phase.isTerminal, h, readyInv, readyCount_append,
              readyCount_single_authFailure, hc0, hcn]
          · simp [step, Phase.isTerminal, h, readyInv, readyCount_append,
              readyCount_single_ready, hc0]
        · simp [step, hterm, h]
          exact ⟨hle, hsome, hbr, hpre⟩
    | clientBinary frame =>
        by_cases h : s.phase = Phase.bridging
        · obtain ⟨hb1, hb2⟩ := hbr h
          simp [step, Phase.isTerminal, h, readyInv, hb1, hb2]
        · simp [step, hterm, h]
          exact ⟨hle, hsome, hbr, hpre⟩
    | clientControl kind =>
        by_cases h : s.phase = Phase.bridging
        · obtain ⟨hb1, hb2⟩ := hbr h
          by_cases hk : kind ∈ recognizedControlKinds <;>
            simp [step, Phase.isTerminal, h, hk, readyInv, readyCount_append,
              readyCount_single_error, hb1, hb2]
        · simp [step, hterm, h]
          exact ⟨hle, hsome, hbr, hpre⟩
    | upstreamAudioDelta frame =>
        by_cases h : s.phase = Phase.bridging
        · obtain ⟨hb1, hb2⟩ := hbr h
          simp [step, Phase.isTerminal, h, readyInv, readyCount_append,
            readyCount_single_audio, hb1, hb2]
        · simp [step, hterm, h]
          exact ⟨hle, hsome, hbr, hpre⟩
    | upstreamTranscript payload =>
        by_cases h : s.phase = Phase.bridging
        · obtain ⟨hb1, hb2⟩ := hbr h
          simp [step, Phase.isTerminal, h, readyInv, readyCount_append,
            readyCount_single_transcript, hb1, hb2]
        · simp [step, hterm, h]
          exact ⟨hle, hsome, hbr, hpre⟩
    | upstreamToolCallRequest c tn =>
        by_cases h : s.phase = Phase.bridging
        · obtain ⟨hb1, hb2⟩ := hbr h
          by_cases hreg : tn ∈ cfg.registeredTools <;>
            simp [step, Phase.isTerminal, h, hreg, readyInv, hb1, hb2]
        · simp [step, hterm, h]
          exact ⟨hle, hsome, hbr, hpre⟩
    | gatewayComplete c o =>
        by_cases hp : c ∈ s.pending
        · by_cases hop : s.upstreamOpen = true <;>
          · simp [step, hterm, hp, hop, readyInv]
            exact ⟨hle, hsome, hbr, hpre⟩
        · simp [step, hterm, hp]
          exact ⟨hle, hsome, hbr, hpre⟩
    | clientDisconnect =>
        have hs : step cfg s Event.clientDisconnect = closeTerm s := by
          simp [step, hterm]
        rw [hs]
        exact readyInv_closeTerm s ⟨hle, hsome, hbr, hpre⟩
    | upstreamDisconnect =>
        have hs : step cfg s Event.upstreamDisconnect = closeTerm s := by
          simp [step, hterm]
        rw [hs]
        exact readyInv_closeTerm s ⟨hle, hsome, hbr, hpre⟩

/-- The `ready` invariant holds along any run from any state satisfying it. -/
theorem readyInv_run (cfg : Config) (evs : List Event) :
    ∀ (s : OrchState), readyInv s → readyInv (run cfg s evs) := by
  induction evs with
  | nil => intro s h; exact h
  | cons e evs ih =>
      intro s h
      exact ih (step cfg s e) (readyInv_step cfg s e h)

/-- The initial connection state satisfies the `ready` invariant. -/
theorem readyInv_init : readyInv initState := by
  refine ⟨?_, ?_, ?_, ?_⟩ <;> simp [initState, readyCount, readyInv]

/-- C2: over any whole connection lifetime the `ready` signal is sent to
the client at most once and never before the VoiceSession exists; a
connection in `Bridging` has been sent `ready` exactly once; and the
authentication-success step that enters `Bridging` sends it, making the
count exactly one at that moment, with the VoiceSession created. -/
theorem ready_at_most_once_C2 (cfg : Config) (evs : List Event) (u t : String) :
    readyCount (run cfg initState evs).toClient ≤ 1
    ∧ (1 ≤ readyCount (run cfg initState evs).toClient →
        (run cfg initState evs).session.isSome = true)
    ∧ ((run cfg initState evs).phase = Phase.bridging →
        readyCount (run cfg initState evs).toClient = 1)
    ∧ ((run cfg initState evs).phase = Phase.authenticating →
        (step cfg (run cfg initState evs) (Event.credential true u t)).phase = Phase.bridging
        ∧ readyCount
            (step cfg (run cfg initState evs) (Event.credential true u t)).toClient = 1
        ∧ (step cfg (run cfg initState evs)
            (Event.credential true u t)).session.isSome = true) := by
  obtain ⟨hle, hsome, hbr, hpre⟩ := readyInv_run cfg evs initState readyInv_init
  refine ⟨hle, hsome, fun hb => (hbr hb).1, ?_⟩
  intro h
  obtain ⟨hc0, hcn⟩ := hpre (Or.inr h)
  have hterm : (run cfg initState evs).phase.isTerminal = false := by rw [h]; rfl
  refine ⟨?_, ?_, ?_⟩ <;>
    simp [step, Phase.isTerminal, hterm, h, readyCount_append, readyCount_single_ready, hc0]

/-- C2 witness: after the handshake event the connection is authenticating,
and the theorem's conclusion holds for that concrete one-event trace. -/
theorem ready_at_most_once_C2_witness :
    (run demoConfig initState [Event.transportAccepted]).phase = Phase.authenticating
    ∧ (readyCount (run demoConfig initState [Event.transportAccepted]).toClient ≤ 1
       ∧ (1 ≤ readyCount (run demoConfig initState [Event.transportAccepted]).toClient →
           (run demoConfig initState [Event.transportAccepted]).session.isSome = true)
       ∧ ((run demoConfig initState [Event.transportAccepted]).phase = Phase.bridging →
           readyCount (run demoConfig initState [Event.transportAccepted]).toClient = 1)
       ∧ ((run demoConfig initState [Event.transportAccepted]).phase = Phase.authenticating →
           (step demoConfig (run demoConfig initState [Event.transportAccepted])
             (Event.credential true "u1" "tok1")).phase = Phase.bridging
           ∧ readyCount (step demoConfig (run demoConfig initState [Event.transportAccepted])
               (Event.credential true "u1" "tok1")).toClient = 1
           ∧ (step demoConfig (run demoConfig initState [Event.transportAccepted])
               (Event.credential true "u1" "tok1")).session.isSome = true)) :=
  ⟨by decide, ready_at_most_once_C2 demoConfig [Event.transportAccepted] "u1" "tok1"⟩

/-- C1: a tool-call whose callId was forwarded to the Tool Gateway in
Bridging is resolved by exactly one tool-call-response sent back upstream:
at most one response per callId ever appears in the upstream log of a run
in which the upstream assigned the callId at most once; a gateway
completion (success or failure alike, the failure being carried as an
error payload, never dropped) for an outstanding callId while the upstream
channel is open appends exactly that one response and retires the callId;
and when the upstream channel has closed while the call was outstanding,
no response for it is ever sent. -/
theorem toolCallResponse_exactly_once_C1
    (cfg : Config) (evs : List Event) (s : OrchState) (cid : String)
    (outcome : ToolOutcome) (hreq : reqCount cid evs ≤ 1) :
    respCount cid (run cfg initState evs).toUpstream ≤ 1
    ∧ (s.phase = Phase.bridging → cid ∈ s.pending → s.upstreamOpen = true →
        (step cfg s (Event.gatewayComplete cid outcome)).toUpstream
            = s.toUpstream ++ [UpstreamMsg.toolCallResponse cid outcome]
          ∧ (step cfg s (Event.gatewayComplete cid outcome)).pending = s.pending.erase cid)
    ∧ (s.upstreamOpen = false →
        respCount cid (step cfg s (Event.gatewayComplete cid outcome)).toUpstream
          = respCount cid s.toUpstream)
    ∧ (s.phase.isTerminal = true → step cfg s (Event.gatewayComplete cid outcome) = s) := by
  refine ⟨?_, ?_, ?_, ?_⟩
  · have h := run_resp_pend cfg cid evs initState
    have h0 : respCount cid initState.toUpstream = 0 := rfl
    have h1 : initState.pending.count cid = 0 := rfl
    omega
  · intro h1 h2 h3
    have hterm : s.phase.isTerminal = false := by rw [h1]; rfl
    constructor <;> simp [step, hterm, h2, h3]
  · intro h1
    by_cases hterm : s.phase.isTerminal = true
    · rw [step_terminal cfg s _ hterm]
    · by_cases hp : cid ∈ s.pending
      · simp [step, hterm, hp, h1]
      · simp [step, hterm, hp]
  · intro h1
    exact step_terminal cfg s _ h1

/-- C1 witness: the demo trace forwards callId `c1` once and completes it
while bridging with the channel open. -/
theorem toolCallResponse_exactly_once_C1_witness :
    reqCount "c1" demoTrace ≤ 1
    ∧ (respCount "c1" (run demoConfig initState demoTrace).toUpstream ≤ 1
       ∧ (demoBridgingState.phase = Phase.bridging → "c1" ∈ demoBridgingState.pending →
            demoBridgingState.upstreamOpen = true →
            (step demoConfig demoBridgingState
                (Event.gatewayComplete "c1" (ToolOutcome.result "sunny"))).toUpstream
                = demoBridgingState.toUpstream
                    ++ [UpstreamMsg.toolCallResponse "c1" (ToolOutcome.result "sunny")]
              ∧ (step demoConfig demoBridgingState
                  (Event.gatewayComplete "c1" (ToolOutcome.result "sunny"))).pending
                  = demoBridgingState.pending.erase "c1")
       ∧ (demoBridgingState.upstreamOpen = false →
            respCount "c1" (step demoConfig demoBridgingState
                (Event.gatewayComplete "c1" (ToolOutcome.result "sunny"))).toUpstream
              = respCount "c1" demoBridgingState.toUpstream)
       ∧ (demoBridgingState.phase.isTerminal = true →
            step demoConfig demoBridgingState
              (Event.gatewayComplete "c1" (ToolOutcome.result "sunny"))
              = demoBridgingState)) :=
  ⟨by decide,
   toolCallResponse_exactly_once_C1 demoConfig demoTrace demoBridgingState "c1"
     (ToolOutcome.result "sunny") (by decide)⟩

/-- C4: invoking the terminal close path twice yields the same state as
invoking it once; from a live state with an active session and a registry
entry, the VoiceSession is marked ended exactly once and the registry
entry removed exactly once (the counters do not advance on the second
invocation); and the Session Store's end operation and the channel's
disconnect are idempotent. -/
theorem terminal_close_idempotent_C4 (s : OrchState) (v : VoiceSession)
    (h1 : s.phase.isTerminal = false) (h2 : s.session = some v)
    (h3 : v.ended = false) (h4 : s.inRegistry = true) :
    (∀ s' : OrchState, closeTerm (closeTerm s') = closeTerm s')
    ∧ (closeTerm s).endEffects = s.endEffects + 1
    ∧ (closeTerm (closeTerm s)).endEffects = s.endEffects + 1
    ∧ (closeTerm s).removeEffects = s.removeEffects + 1
    ∧ (closeTerm (closeTerm s)).removeEffects = s.removeEffects + 1
    ∧ (closeTerm s).session = some (endSession v)
    ∧ (closeTerm s).inRegistry = false
    ∧ (∀ w : VoiceSession, endSession (endSession w) = endSession w)
    ∧ (∀ c : UpstreamChannel,
        UpstreamChannel.disconnect (UpstreamChannel.disconnect c)
          = UpstreamChannel.disconnect c) := by
  have hact : sessionActive s = true := by simp [sessionActive, h2, h3]
  refine ⟨closeTerm_idem, ?_, ?_, ?_, ?_, ?_, ?_, fun w => rfl, fun c => rfl⟩
  · simp [closeTerm, h1, hact]
  · rw [closeTerm_idem]
    simp [closeTerm, h1, hact]
  · simp [closeTerm, h1, h4]
  · rw [closeTerm_idem]
    simp [closeTerm, h1, h4]
  · simp [closeTerm, h1, h2]
  · simp [closeTerm, h1]

/-- C4 witness at the concrete live bridging state. -/
theorem terminal_close_idempotent_C4_witness :
    demoBridgingState.phase.isTerminal = false
    ∧ demoBridgingState.session = some ⟨"u1", "tok1", false⟩
    ∧ (VoiceSession.mk "u1" "tok1" false).ended = false
    ∧ demoBridgingState.inRegistry = true
    ∧ ((∀ s' : OrchState, closeTerm (closeTerm s') = closeTerm s')
       ∧ (closeTerm demoBridgingState).endEffects = demoBridgingState.endEffects + 1
       ∧ (closeTerm (closeTerm demoBridgingState)).endEffects
           = demoBridgingState.endEffects + 1
       ∧ (closeTerm demoBridgingState).removeEffects
           = demoBridgingState.removeEffects + 1
       ∧ (closeTerm (closeTerm demoBridgingState)).removeEffects
           = demoBridgingState.removeEffects + 1
       ∧ (closeTerm demoBridgingState).session = some (endSession ⟨"u1", "tok1", false⟩)
       ∧ (closeTerm demoBridgingState).inRegistry = false
       ∧ (∀ w : VoiceSession, endSession (endSession w) = endSession w)
       ∧ (∀ c : UpstreamChannel,
           UpstreamChannel.disconnect (UpstreamChannel.disconnect c)
             = UpstreamChannel.disconnect c)) :=
  ⟨by decide, by decide, by decide, by decide,
   terminal_close_idempotent_C4 demoBridgingState ⟨"u1", "tok1", false⟩
     (by decide) (by decide) (by decide) (by decide)⟩

/-- C5: an invalid credential in `Authenticating` drives the machine to
the terminal `Failed` phase, with no VoiceSession created, the
authentication-failure event sent to the client, and every later event of
any trace ignored — in particular no retry ever happens and no session is
ever created for that connection. -/
theorem auth_failure_no_session_C5 (cfg : Config) (s : OrchState) (u t : String)
    (evs : List Event) (h1 : s.phase = Phase.authenticating) (h2 : s.session = none) :
    (step cfg s (Event.credential false u t)).phase = Phase.failed
    ∧ (step cfg s (Event.credential false u t)).session = none
    ∧ (step cfg s (Event.credential false u t)).toClient
        = s.toClient ++ [ClientMsg.authFailure]
    ∧ run cfg (step cfg s (Event.credential false u t)) evs
        = step cfg s (Event.credential false u t)
    ∧ (run cfg (step cfg s (Event.credential false u t)) evs).session = none := by
  have hstep : step cfg s (Event.credential false u t)
      = { s with phase := Phase.failed
                 toClient := s.toClient ++ [ClientMsg.authFailure] } := by
    simp [step, Phase.isTerminal, h1]
  have htermF : (step cfg s (Event.credential false u t)).phase.isTerminal = true := by
    rw [hstep]
    rfl
  have hrunF := run_terminal cfg (step cfg s (Event.credential false u t)) evs htermF
  refine ⟨by rw [hstep], by rw [hstep]; exact h2, by rw [hstep], hrunF, ?_⟩
  rw [hrunF, hstep]
  exact h2

/-- C5 witness at the concrete authenticating state, with a trace that even
offers a fresh valid credential afterwards — it is ignored. -/
theorem auth_failure_no_session_C5_witness :
    demoAuthState.phase = Phase.authenticating
    ∧ demoAuthState.session = none
    ∧ ((step demoConfig demoAuthState (Event.credential false "u1" "tok1")).phase
          = Phase.failed
       ∧ (step demoConfig demoAuthState (Event.credential false "u1" "tok1")).session = none
       ∧ (step demoConfig demoAuthState (Event.credential false "u1" "tok1")).toClient
           = demoAuthState.toClient ++ [ClientMsg.authFailure]
       ∧ run demoConfig (step demoConfig demoAuthState (Event.credential false "u1" "tok1"))
             [Event.credential true "u2" "tok2"]
           = step demoConfig demoAuthState (Event.credential false "u1" "tok1")
       ∧ (run demoConfig (step demoConfig demoAuthState (Event.credential false "u1" "tok1"))
             [Event.credential true "u2" "tok2"]).session = none) :=
  ⟨by decide, by decide,
   auth_failure_no_session_C5 demoConfig demoAuthState "u1" "tok1"
     [Event.credential true "u2" "tok2"] (by decide) (by decide)⟩

/-- C6: a tool-call request in `Bridging` whose tool name is not in the
registered tool set is answered immediately with a synthesized error
response sent upstream, the Tool Gateway is not invoked, and no call
becomes outstanding. -/
theorem unregistered_tool_error_C6 (cfg : Config) (s : OrchState) (cid tn : String)
    (h1 : s.phase = Phase.bridging) (h2 : tn ∉ cfg.registeredTools) :
    (step cfg s (Event.upstreamToolCallRequest cid tn)).toUpstream
        = s.toUpstream
            ++ [UpstreamMsg.toolCallResponse cid
                  (ToolOutcome.toolError ("unknown tool: " ++ tn))]
    ∧ (step cfg s (Event.upstreamToolCallRequest cid tn)).gatewayCalls = s.gatewayCalls
    ∧ (step cfg s (Event.upstreamToolCallRequest cid tn)).pending = s.pending := by
  refine ⟨?_, ?_, ?_⟩ <;> simp [step, Phase.isTerminal, h1, h2]

/-- C6 witness: the tool `search` is not registered in the demo config. -/
theorem unregistered_tool_error_C6_witness :
    demoBridgingState.phase = Phase.bridging
    ∧ "search" ∉ demoConfig.registeredTools
    ∧ ((step demoConfig demoBridgingState
            (Event.upstreamToolCallRequest "c9" "search")).toUpstream
          = demoBridgingState.toUpstream
              ++ [UpstreamMsg.toolCallResponse "c9"
                    (ToolOutcome.toolError ("unknown tool: " ++ "search"))]
       ∧ (step demoConfig demoBridgingState
            (Event.upstreamToolCallRequest "c9" "search")).gatewayCalls
          = demoBridgingState.gatewayCalls
       ∧ (step demoConfig demoBridgingState
            (Event.upstreamToolCallRequest "c9" "search")).pending
          = demoBridgingState.pending) :=
  ⟨by decide, by decide,
   unregistered_tool_error_C6 demoConfig demoBridgingState "c9" "search"
     (by decide) (by decide)⟩

/-- C7: a structured client payload whose kind is outside the recognized
closed set is answered with a structured error event to the client and
changes nothing else: the resulting state is the old state with only that
error event appended, and the connection remains in `Bridging`. -/
theorem unrecognized_kind_state_unchanged_C7 (cfg : Config) (s : OrchState) (kind : String)
    (h1 : s.phase = Phase.bridging) (h2 : kind ∉ recognizedControlKinds) :
    step cfg s (Event.clientControl kind)
        = { s with toClient := s.toClient
              ++ [ClientMsg.errorEvent ("unrecognized message kind: " ++ kind)] }
    ∧ (step cfg s (Event.clientControl kind)).phase = Phase.bridging := by
  have hstep : step cfg s (Event.clientControl kind)
      = { s with toClient := s.toClient
            ++ [ClientMsg.errorEvent ("unrecognized message kind: " ++ kind)] } := by
    simp [step, Phase.isTerminal, h1, h2]
  exact ⟨hstep, by rw [hstep]; exact h1⟩

/-- C7 witness: the kind `ping` is not among the recognized control kinds. -/
theorem unrecognized_kind_state_unchanged_C7_witness :
    demoBridgingState.phase = Phase.bridging
    ∧ "ping" ∉ recognizedControlKinds
    ∧ (step demoConfig demoBridgingState (Event.clientControl "ping")
          = { demoBridgingState with
              toClient := demoBridgingState.toClient
                ++ [ClientMsg.errorEvent ("unrecognized message kind: " ++ "ping")] }
       ∧ (step demoConfig demoBridgingState (Event.clientControl "ping")).phase
          = Phase.bridging) :=
  ⟨by decide, by decide,
   unrecognized_kind_state_unchanged_C7 demoConfig demoBridgingState "ping"
     (by decide) (by decide)⟩

/-- Forwarding a whole sequence of upstream audio-delta events from
`Bridging` appends exactly the corresponding binary payloads, in arrival
order, to the client log. -/
theorem run_audio_deltas (cfg : Config) :
    ∀ (frames : List (List Nat)) (s : OrchState), s.phase = Phase.bridging →
      (run cfg s (frames.map Event.upstreamAudioDelta)).toClient
        = s.toClient ++ frames.map ClientMsg.binaryAudio := by
  intro frames
  induction frames with
  | nil =>
      intro s h
      simp [run]
  | cons f fs ih =>
      intro s h
      have hstep : step cfg s (Event.upstreamAudioDelta f)
          = { s with toClient := s.toClient ++ [ClientMsg.binaryAudio f] } := by
        simp [step, Phase.isTerminal, h]
      have hrun : run cfg s ((f :: fs).map Event.upstreamAudioDelta)
          = run cfg (step cfg s (Event.upstreamAudioDelta f))
              (fs.map Event.upstreamAudioDelta) := rfl
      rw [hrun, hstep,
        ih { s with toClient := s.toClient ++ [ClientMsg.binaryAudio f] } h]
      simp

/-- C8: every upstream audio-delta event is forwarded to the client as a
binary payload in exactly the order received, with none dropped; and every
inbound client binary payload is forwarded to the Upstream Speech Channel
as-is, unmodified. -/
theorem audio_forwarding_order_C8 (cfg : Config) (s : OrchState)
    (frames : List (List Nat)) (frame : List Nat) (h : s.phase = Phase.bridging) :
    (run cfg s (frames.map Event.upstreamAudioDelta)).toClient
        = s.toClient ++ frames.map ClientMsg.binaryAudio
    ∧ (step cfg s (Event.clientBinary frame)).toUpstream
        = s.toUpstream ++ [UpstreamMsg.audioFrame frame] := by
  refine ⟨run_audio_deltas cfg frames s h, ?_⟩
  simp [step, Phase.isTerminal, h]

/-- C8 witness: two concrete audio deltas are forwarded in order and a
concrete client frame is forwarded unmodified. -/
theorem audio_forwarding_order_C8_witness :
    demoBridgingState.phase = Phase.bridging
    ∧ ((run demoConfig demoBridgingState
          ([[1, 2], [3]].map Event.upstreamAudioDelta)).toClient
          = demoBridgingState.toClient ++ [[1, 2], [3]].map ClientMsg.binaryAudio
       ∧ (step demoConfig demoBridgingState (Event.clientBinary [7])).toUpstream
          = demoBridgingState.toUpstream ++ [UpstreamMsg.audioFrame [7]]) :=
  ⟨by decide,
   audio_forwarding_order_C8 demoConfig demoBridgingState [[1, 2], [3]] [7] (by decide)⟩

end VoiceAgent
